import Mathlib

/-!
Shallow embedding of the offline-durability core of the feedback-widget
repository: the persistent queue store, the sync engine
(src/core/offline-queue.ts, class OfflineQueue) and the widget facade
routing logic (class FeedbackWidget).  JavaScript strings are modelled as
Lean strings; toLowerCase is modelled on the ASCII range; Date.now and
Math.random are passed in as explicit parameters; asynchronous effects are
modelled by explicit state passing in program order (the scheduling model
is single-threaded cooperative concurrency).
-/

/-! ## ASCII string machinery (models of the JavaScript string operations) -/

/-- Model of JavaScript toLowerCase restricted to the ASCII range (every
error marker in the source is ASCII): uppercase letters shift down by the
case distance, everything else is untouched. -/
def lowerChar (c : Char) : Char :=
  if 65 ≤ c.toNat ∧ c.toNat ≤ 90 then Char.ofNat (c.toNat + 32) else c

/-- Model of toLowerCase on a whole string. -/
def lowerStr (s : String) : String :=
  String.mk (s.data.map lowerChar)

/-- Whether the first list is a prefix of the second, as a boolean. -/
def charsPrefOf : List Char → List Char → Bool
  | [], _ => true
  | _ :: _, [] => false
  | a :: as, b :: bs => (a == b) && charsPrefOf as bs

/-- Whether the first list occurs as a contiguous run inside the second. -/
def charsContainSub (sub : List Char) : List Char → Bool
  | [] => sub.isEmpty
  | b :: bs => charsPrefOf sub (b :: bs) || charsContainSub sub bs

/-- Model of JavaScript s.includes(sub): substring containment. -/
def strContains (s sub : String) : Bool :=
  charsContainSub sub.data s.data

/-! ## Data model (src/types/index.ts) -/

inductive FeedbackType
  | bug
  | feature
  | design
deriving DecidableEq, Repr

inductive FeedbackPriority
  | low
  | medium
  | high
  | critical
deriving DecidableEq, Repr

/-- Context attributes: opaque to the core, a placeholder bag here. -/
structure FeedbackContext where
  os_name : Option String := none
  locale : Option String := none
  timezone : Option String := none
deriving DecidableEq, Repr

structure FeedbackSubmission where
  type : FeedbackType
  priority : FeedbackPriority
  title : String
  description : String
  submitter_name : Option String := none
  submitter_email : Option String := none
  widget_version : Option String := none
  context : Option FeedbackContext := none
deriving DecidableEq, Repr

structure SubmissionResponse where
  success : Bool
  feedback_id : Option String := none
  error : Option String := none
deriving DecidableEq, Repr

structure QueuedSubmission where
  id : String
  submission : FeedbackSubmission
  screenshotUri : Option String := none
  createdAt : Nat
  retryCount : Nat
deriving DecidableEq, Repr

/-! ## Persistent queue store operations (src/core/offline-queue.ts)

The store is the JSON array held under the single storage key, modelled
as a list of records.  OfflineQueue.remove filters out every record with
the given id; OfflineQueue.update replaces the first record whose id
matches and is a no-op when the id is absent. -/

/-- Model of OfflineQueue.remove applied to the stored queue. -/
def removeFromStore (id : String) : List QueuedSubmission → List QueuedSubmission
  | [] => []
  | q :: rest =>
    if q.id = id then removeFromStore id rest else q :: removeFromStore id rest

/-- Model of OfflineQueue.update applied to the stored queue: replace the
first record with a matching id, no-op if absent. -/
def updateInStore (item : QueuedSubmission) : List QueuedSubmission → List QueuedSubmission
  | [] => []
  | q :: rest =>
    if q.id = item.id then item :: rest else q :: updateInStore item rest

/-- Model of the id generator in OfflineQueue.enqueue:
Date.now() concatenated with a random suffix. -/
def genId (now : Nat) (rand : String) : String :=
  toString now ++ "-" ++ rand

/-- The record built by OfflineQueue.enqueue: fresh id, createdAt from
Date.now, retryCount zero. -/
def mkQueuedRecord (sub : FeedbackSubmission) (shot : Option String)
    (now : Nat) (rand : String) : QueuedSubmission :=
  { id := genId now rand
    submission := sub
    screenshotUri := shot
    createdAt := now
    retryCount := 0 }

namespace OfflineQueue

/-- Model of OfflineQueue.enqueue: append the stamped record, return the id
and the new stored queue. -/
def enqueue (sub : FeedbackSubmission) (shot : Option String)
    (now : Nat) (rand : String) (store : List QueuedSubmission) :
    String × List QueuedSubmission :=
  let item := mkQueuedRecord sub shot now rand
  (item.id, store ++ [item])

/-- Effective retry bound: the source reads config.maxRetries with a
JavaScript falsy-or, so zero falls back to 3. -/
def effMaxRetries (n : Nat) : Nat :=
  if n = 0 then 3 else n

/-- Outcome of one call of the caller-supplied delivery function
(syncCallback): resolved true, resolved false, or rejected with a message. -/
inductive DeliveryOutcome
  | success
  | failure
  | thrown (msg : String)

/-- Observer callbacks fired by the sync engine, recorded in order. -/
inductive QueueEvent
  | syncStart
  | syncComplete (succeeded failed : Nat)
  | submissionSynced (id : String)
  | submissionFailed (id : String) (error : String)
deriving DecidableEq, Repr

/-- State threaded through one drain pass of OfflineQueue.sync. -/
structure PassState where
  store : List QueuedSubmission
  succeeded : Nat
  failed : Nat
  events : List QueueEvent
  attempts : List String
deriving DecidableEq, Repr

/-- The per-record loop body of OfflineQueue.sync, iterated over the
snapshot taken at the start of the pass.  The attempts field records the
ids on which the delivery function was actually invoked, in order. -/
def runPass (maxR : Nat) (deliver : QueuedSubmission → DeliveryOutcome) :
    List QueuedSubmission → PassState → PassState
  | [], st => st
  | item :: rest, st =>
    if maxR ≤ item.retryCount then
      runPass maxR deliver rest
        { st with
          store := removeFromStore item.id st.store
          failed := st.failed + 1
          events := st.events ++ [QueueEvent.submissionFailed item.id "Max retries exceeded"] }
    else
      match deliver item with
      | DeliveryOutcome.success =>
        runPass maxR deliver rest
          { st with
            store := removeFromStore item.id st.store
            succeeded := st.succeeded + 1
            events := st.events ++ [QueueEvent.submissionSynced item.id]
            attempts := st.attempts ++ [item.id] }
      | DeliveryOutcome.failure =>
        runPass maxR deliver rest
          { st with
            store := updateInStore { item with retryCount := item.retryCount + 1 } st.store
            failed := st.failed + 1
            attempts := st.attempts ++ [item.id] }
      | DeliveryOutcome.thrown msg =>
        runPass maxR deliver rest
          { st with
            store := updateInStore { item with retryCount := item.retryCount + 1 } st.store
            failed := st.failed + 1
            events := st.events ++ [QueueEvent.submissionFailed item.id msg]
            attempts := st.attempts ++ [item.id] }

/-- The mutable fields of the OfflineQueue instance that sync touches. -/
structure QueueState where
  store : List QueuedSubmission
  isConnected : Bool
  syncInProgress : Bool
deriving DecidableEq, Repr

/-- Result of one OfflineQueue.sync call: the new instance state, the
returned counters, the observer callbacks fired, and the ids handed to the
delivery function. -/
structure SyncOutput where
  state : QueueState
  succeeded : Nat
  failed : Nat
  events : List QueueEvent
  attempts : List String
deriving DecidableEq, Repr

/-- Model of OfflineQueue.sync.  The guard mirrors the source: offline, a
pass already in progress, or no delivery function registered short-circuits
to zero counts with nothing touched.  Otherwise the pass snapshots the
stored queue and processes it in order; syncInProgress is reset in the
finally block, so it is false in the returned state. -/
def sync (maxR : Nat) (deliver : Option (QueuedSubmission → DeliveryOutcome))
    (st : QueueState) : SyncOutput :=
  if !st.isConnected || st.syncInProgress || deliver.isNone then
    { state := st, succeeded := 0, failed := 0, events := [], attempts := [] }
  else
    match deliver with
    | none =>
      { state := st, succeeded := 0, failed := 0, events := [], attempts := [] }
    | some f =>
      let ps := runPass (effMaxRetries maxR) f st.store
        { store := st.store, succeeded := 0, failed := 0, events := [], attempts := [] }
      { state := { st with store := ps.store, syncInProgress := false }
        succeeded := ps.succeeded
        failed := ps.failed
        events := QueueEvent.syncStart :: ps.events
          ++ [QueueEvent.syncComplete ps.succeeded ps.failed]
        attempts := ps.attempts }

/-- Model of OfflineQueue.getPendingCount. -/
def getPendingCount (st : QueueState) : Nat :=
  st.store.length

/-! ### Exception-aware model of the drain pass

The source catches delivery rejections inside the loop and catches storage
read failures inside getQueue, but the storage writes performed by
saveQueue (reached through remove and update) have no surrounding catch on
several paths, so a rejected write can propagate out of sync().  This
variant makes the writes fallible: the oracle maps the index of each
attempted storage write during the pass to none (resolved) or to a
rejection message.  update only performs a write when a record with the
matching id is present, mirroring the findIndex guard in the source. -/

structure PassStateE where
  store : List QueuedSubmission
  succeeded : Nat
  failed : Nat
  events : List QueueEvent
  attempts : List String
  writes : Nat
deriving DecidableEq, Repr

/-- The per-record loop body of sync with fallible storage writes.  The
catch branch of the source increments retryCount and persists the record
again; when the failed write came from the update in the returned-false
branch, the increment has already happened once, so the catch produces a
second increment, faithfully modelled here. -/
def runPassE (maxR : Nat) (deliver : QueuedSubmission → DeliveryOutcome)
    (oracle : Nat → Option String) :
    List QueuedSubmission → PassStateE → Except String PassStateE
  | [], ps => Except.ok ps
  | item :: rest, ps =>
    if maxR ≤ item.retryCount then
      let evs := ps.events ++ [QueueEvent.submissionFailed item.id "Max retries exceeded"]
      match oracle ps.writes with
      | some werr => Except.error werr
      | none =>
        runPassE maxR deliver oracle rest
          { ps with
            store := removeFromStore item.id ps.store
            failed := ps.failed + 1
            events := evs
            writes := ps.writes + 1 }
    else
      match deliver item with
      | DeliveryOutcome.success =>
        match oracle ps.writes with
        | none =>
          runPassE maxR deliver oracle rest
            { ps with
              store := removeFromStore item.id ps.store
              succeeded := ps.succeeded + 1
              events := ps.events ++ [QueueEvent.submissionSynced item.id]
              attempts := ps.attempts ++ [item.id]
              writes := ps.writes + 1 }
        | some werr =>
          let item1 := { item with retryCount := item.retryCount + 1 }
          let ps1 := { ps with attempts := ps.attempts ++ [item.id], writes := ps.writes + 1 }
          if ps1.store.any (fun q => q.id == item1.id) then
            match oracle ps1.writes with
            | some werr2 => Except.error werr2
            | none =>
              runPassE maxR deliver oracle rest
                { ps1 with
                  store := updateInStore item1 ps1.store
                  failed := ps1.failed + 1
                  events := ps1.events ++ [QueueEvent.submissionFailed item.id werr]
                  writes := ps1.writes + 1 }
          else
            runPassE maxR deliver oracle rest
              { ps1 with
                failed := ps1.failed + 1
                events := ps1.events ++ [QueueEvent.submissionFailed item.id werr] }
      | DeliveryOutcome.failure =>
        let item1 := { item with retryCount := item.retryCount + 1 }
        let ps0 := { ps with attempts := ps.attempts ++ [item.id] }
        if ps0.store.any (fun q => q.id == item1.id) then
          match oracle ps0.writes with
          | none =>
            runPassE maxR deliver oracle rest
              { ps0 with
                store := updateInStore item1 ps0.store
                failed := ps0.failed + 1
                writes := ps0.writes + 1 }
          | some werr =>
            let item2 := { item with retryCount := item.retryCount + 2 }
            let ps1 := { ps0 with writes := ps0.writes + 1 }
            if ps1.store.any (fun q => q.id == item2.id) then
              match oracle ps1.writes with
              | some werr2 => Except.error werr2
              | none =>
                runPassE maxR deliver oracle rest
                  { ps1 with
                    store := updateInStore item2 ps1.store
                    failed := ps1.failed + 1
                    events := ps1.events ++ [QueueEvent.submissionFailed item.id werr]
                    writes := ps1.writes + 1 }
            else
              runPassE maxR deliver oracle rest
                { ps1 with
                  failed := ps1.failed + 1
                  events := ps1.events ++ [QueueEvent.submissionFailed item.id werr] }
        else
          runPassE maxR deliver oracle rest
            { ps0 with failed := ps0.failed + 1 }
      | DeliveryOutcome.thrown msg =>
        let item1 := { item with retryCount := item.retryCount + 1 }
        let ps0 := { ps with attempts := ps.attempts ++ [item.id] }
        if ps0.store.any (fun q => q.id == item1.id) then
          match oracle ps0.writes with
          | some werr => Except.error werr
          | none =>
            runPassE maxR deliver oracle rest
              { ps0 with
                store := updateInStore item1 ps0.store
                failed := ps0.failed + 1
                events := ps0.events ++ [QueueEvent.submissionFailed item.id msg]
                writes := ps0.writes + 1 }
        else
          runPassE maxR deliver oracle rest
            { ps0 with
              failed := ps0.failed + 1
              events := ps0.events ++ [QueueEvent.submissionFailed item.id msg] }

/-- Model of OfflineQueue.sync with fallible storage writes and a fallible
initial read.  A failing getPending read is caught inside getQueue and
yields an empty snapshot (the stored queue itself is untouched); a failing
write propagates as Except.error, matching a rejection escaping sync(). -/
def syncExc (maxR : Nat) (deliver : Option (QueuedSubmission → DeliveryOutcome))
    (oracle : Nat → Option String) (readFails : Bool) (st : QueueState) :
    Except String SyncOutput :=
  if !st.isConnected || st.syncInProgress || deliver.isNone then
    Except.ok { state := st, succeeded := 0, failed := 0, events := [], attempts := [] }
  else
    match deliver with
    | none =>
      Except.ok { state := st, succeeded := 0, failed := 0, events := [], attempts := [] }
    | some f =>
      let pending := if readFails then [] else st.store
      match runPassE (effMaxRetries maxR) f oracle pending
        { store := st.store, succeeded := 0, failed := 0, events := [], attempts := [], writes := 0 } with
      | Except.error msg => Except.error msg
      | Except.ok ps =>
        Except.ok
          { state := { st with store := ps.store, syncInProgress := false }
            succeeded := ps.succeeded
            failed := ps.failed
            events := QueueEvent.syncStart :: ps.events
              ++ [QueueEvent.syncComplete ps.succeeded ps.failed]
            attempts := ps.attempts }

/-! ### Connectivity monitor model

The source subscribes handleNetworkChange to NetInfo and
handleAppStateChange to AppState in init, and destroy removes both
subscriptions.  A false-to-true reachability flip schedules a sync through
setTimeout with a settle delay; the timer handle is not stored, so destroy
cannot cancel it and the scheduled callback still runs when the delay
elapses.  The boolean in the step result records whether sync() was
invoked by the event. -/

structure MonitorState where
  queueState : QueueState
  subscribed : Bool
  pendingTimers : Nat
deriving DecidableEq, Repr

inductive ExtEvent
  | netChange (connected : Bool)
  | appState (status : String)
  | timerFire
  | destroyCall
deriving DecidableEq, Repr

/-- One external event hitting the monitor.  Listener events only run while
the subscriptions are active; a scheduled timer fires regardless. -/
def monitorStep (maxR : Nat) (deliver : Option (QueuedSubmission → DeliveryOutcome))
    (st : MonitorState) : ExtEvent → MonitorState × Bool
  | ExtEvent.netChange c =>
    if st.subscribed then
      let wasOffline := !st.queueState.isConnected
      let qs := { st.queueState with isConnected := c }
      if wasOffline && c then
        ({ st with queueState := qs, pendingTimers := st.pendingTimers + 1 }, false)
      else
        ({ st with queueState := qs }, false)
    else
      (st, false)
  | ExtEvent.appState status =>
    if st.subscribed then
      if status = "active" && st.queueState.isConnected then
        let o := sync maxR deliver st.queueState
        ({ st with queueState := o.state }, true)
      else
        (st, false)
    else
      (st, false)
  | ExtEvent.timerFire =>
    if 0 < st.pendingTimers then
      let o := sync maxR deliver st.queueState
      ({ st with queueState := o.state, pendingTimers := st.pendingTimers - 1 }, true)
    else
      (st, false)
  | ExtEvent.destroyCall =>
    ({ st with subscribed := false }, false)

end OfflineQueue

/-! ## Widget facade (src/widget.ts, class FeedbackWidget) -/

def SDK_VERSION : String := "0.1.0"

/-- Argument object of the static submit entry point. -/
structure FeedbackInput where
  type : FeedbackType
  priority : FeedbackPriority
  title : String
  description : String
  screenshotUri : Option String := none
deriving DecidableEq, Repr

/-- The user block of the widget configuration. -/
structure UserInfo where
  name : Option String := none
  email : Option String := none
deriving DecidableEq, Repr

namespace FeedbackWidget

/-- The marker list of FeedbackWidget.isNetworkError, verbatim from the
source, including the uppercase ECONNREFUSED entry. -/
def networkErrorMarkers : List String :=
  ["network", "fetch", "timeout", "offline", "ECONNREFUSED"]

/-- Model of FeedbackWidget.isNetworkError: lowercase the error text, then
test whether any marker occurs as a substring. -/
def isNetworkError (error : Option String) : Bool :=
  match error with
  | none => false
  | some e => networkErrorMarkers.any (fun m => strContains (lowerStr e) m)

/-- Lifecycle callbacks fired by submitFeedback, recorded in order. -/
inductive WidgetEvent
  | submitStartEv
  | submitSuccessEv (feedbackId : Option String)
  | submitErrorEv (msg : String)
deriving DecidableEq, Repr

/-- The mutable instance fields the routing logic touches: the in-flight
flag and the owned offline queue. -/
structure WidgetState where
  isSubmitting : Bool
  queueState : OfflineQueue.QueueState
deriving DecidableEq, Repr

/-- Outcome of the transport collaborator call: a structured response or a
rejection carrying a message.  The transport itself is an external
collaborator of the core. -/
inductive TransportOutcome
  | responded (resp : SubmissionResponse)
  | threw (msg : String)

/-- The submission object built inside submitFeedback: context attached,
widget_version stamped, submitter fields taken from the configured user. -/
def buildSubmission (user : UserInfo) (ctx : FeedbackContext)
    (fb : FeedbackInput) : FeedbackSubmission :=
  { type := fb.type
    priority := fb.priority
    title := fb.title
    description := fb.description
    submitter_name := user.name
    submitter_email := user.email
    widget_version := some SDK_VERSION
    context := some ctx }

/-- Model of FeedbackWidget.queueSubmission: enqueue and answer success
with the offline-marker identifier.  Storage writes are modelled as
succeeding here; the fallible-write model lives in OfflineQueue.syncExc. -/
def queueSubmission (sub : FeedbackSubmission) (shot : Option String)
    (now : Nat) (rand : String) (qs : OfflineQueue.QueueState) :
    SubmissionResponse × OfflineQueue.QueueState :=
  let idStore := OfflineQueue.enqueue sub shot now rand qs.store
  ({ success := true, feedback_id := some ("offline-" ++ idStore.1) },
    { qs with store := idStore.2 })

/-- Model of FeedbackWidget.submitFeedback.  The in-flight guard rejects a
concurrent submission; otherwise the submission is built, routed to the
queue when offline, and otherwise handed to the transport collaborator,
whose failure text is classified to decide enqueue versus surface.  The
catch path of the source rebuilds the submission without the submitter
fields, mirrored here.  isSubmitting is reset in the finally block.  The
screenshot upload after a successful primary submission is a best-effort
external call that the model does not track. -/
def submitFeedback (user : UserInfo) (ctx : FeedbackContext)
    (transport : TransportOutcome) (st : WidgetState) (fb : FeedbackInput)
    (now : Nat) (rand : String) :
    SubmissionResponse × WidgetState × List WidgetEvent :=
  if st.isSubmitting then
    ({ success := false, error := some "Submission already in progress" }, st, [])
  else
    let submission := buildSubmission user ctx fb
    if !st.queueState.isConnected then
      let rq := queueSubmission submission fb.screenshotUri now rand st.queueState
      (rq.1, { isSubmitting := false, queueState := rq.2 }, [WidgetEvent.submitStartEv])
    else
      match transport with
      | TransportOutcome.responded resp =>
        if !resp.success then
          if isNetworkError resp.error then
            let rq := queueSubmission submission fb.screenshotUri now rand st.queueState
            (rq.1, { isSubmitting := false, queueState := rq.2 }, [WidgetEvent.submitStartEv])
          else
            (resp, { st with isSubmitting := false },
              [WidgetEvent.submitStartEv,
               WidgetEvent.submitErrorEv (resp.error.getD "Submission failed")])
        else
          (resp, { st with isSubmitting := false },
            [WidgetEvent.submitStartEv, WidgetEvent.submitSuccessEv resp.feedback_id])
      | TransportOutcome.threw msg =>
        if isNetworkError (some msg) then
          let rq := queueSubmission (buildSubmission { name := none, email := none } ctx fb)
            fb.screenshotUri now rand st.queueState
          (rq.1, { isSubmitting := false, queueState := rq.2 }, [WidgetEvent.submitStartEv])
        else
          ({ success := false, error := some msg }, { st with isSubmitting := false },
            [WidgetEvent.submitStartEv, WidgetEvent.submitErrorEv msg])

/-- Model of the static FeedbackWidget.submit: total on the uninitialized
state, delegating to the instance otherwise. -/
def submitS (inst : Option WidgetState) (user : UserInfo) (ctx : FeedbackContext)
    (transport : TransportOutcome) (fb : FeedbackInput) (now : Nat) (rand : String) :
    SubmissionResponse × Option WidgetState :=
  match inst with
  | none => ({ success := false, error := some "FeedbackWidget not initialized" }, none)
  | some st =>
    let out := submitFeedback user ctx transport st fb now rand
    (out.1, some out.2.1)

/-- Model of the static FeedbackWidget.getPendingCount. -/
def getPendingCountS (inst : Option WidgetState) : Nat :=
  match inst with
  | none => 0
  | some st => OfflineQueue.getPendingCount st.queueState

/-- Model of the static FeedbackWidget.syncOffline. -/
def syncOfflineS (inst : Option WidgetState) (maxR : Nat)
    (deliver : Option (QueuedSubmission → OfflineQueue.DeliveryOutcome)) : Nat × Nat :=
  match inst with
  | none => (0, 0)
  | some st =>
    let o := OfflineQueue.sync maxR deliver st.queueState
    (o.succeeded, o.failed)

/-- Model of the static FeedbackWidget.isOnline. -/
def isOnlineS (inst : Option WidgetState) : Bool :=
  match inst with
  | none => true
  | some st => st.queueState.isConnected

end FeedbackWidget

/-! ## Derived specification functions for the drain pass -/

namespace OfflineQueue

/-- Per-record effect of one drain pass on the stored queue: records at or
over the retry bound are evicted, successfully delivered records are
removed, and a failing attempt persists the record with retryCount one
higher. -/
def syncRecordResult (maxR : Nat) (deliver : QueuedSubmission → DeliveryOutcome)
    (r : QueuedSubmission) : Option QueuedSubmission :=
  if maxR ≤ r.retryCount then none
  else
    match deliver r with
    | DeliveryOutcome.success => none
    | DeliveryOutcome.failure => some { r with retryCount := r.retryCount + 1 }
    | DeliveryOutcome.thrown _ => some { r with retryCount := r.retryCount + 1 }

/-- Whether a record counts toward the succeeded counter of the pass. -/
def attemptSucceeds (maxR : Nat) (deliver : QueuedSubmission → DeliveryOutcome)
    (r : QueuedSubmission) : Bool :=
  if maxR ≤ r.retryCount then false
  else
    match deliver r with
    | DeliveryOutcome.success => true
    | DeliveryOutcome.failure => false
    | DeliveryOutcome.thrown _ => false

/-- The observer callbacks a record contributes during the pass. -/
def recordEvents (maxR : Nat) (deliver : QueuedSubmission → DeliveryOutcome)
    (r : QueuedSubmission) : List QueueEvent :=
  if maxR ≤ r.retryCount then [QueueEvent.submissionFailed r.id "Max retries exceeded"]
  else
    match deliver r with
    | DeliveryOutcome.success => [QueueEvent.submissionSynced r.id]
    | DeliveryOutcome.failure => []
    | DeliveryOutcome.thrown msg => [QueueEvent.submissionFailed r.id msg]

/-- The full expected result of one sync call in the open state, built
pointwise from the snapshot: the surviving records, the counters, the
observer callbacks and the attempted ids. -/
def syncSpecOutput (maxR : Nat) (deliver : QueuedSubmission → DeliveryOutcome)
    (store : List QueuedSubmission) : SyncOutput :=
  let m := effMaxRetries maxR
  let s := store.countP (fun r => attemptSucceeds m deliver r)
  let f := store.countP (fun r => !attemptSucceeds m deliver r)
  { state :=
      { store := store.filterMap (syncRecordResult m deliver),
        isConnected := true,
        syncInProgress := false },
    succeeded := s,
    failed := f,
    events := QueueEvent.syncStart :: (store.map (recordEvents m deliver)).flatten
      ++ [QueueEvent.syncComplete s f],
    attempts := (store.filter (fun r => decide (r.retryCount < m))).map
      QueuedSubmission.id }

/-- Pointwise invariants of one drain pass on a queue with distinct ids:
the new store is the pointwise record result; each record is either
removed or persisted with the same id and retryCount exactly one higher;
every surviving record traces back to a stored record with an unchanged id
and a retryCount exactly one higher, so retryCount never decreases and the
engine changes, adds or reuses no id. -/
def passPointwiseSpec (maxR : Nat) (deliver : QueuedSubmission → DeliveryOutcome)
    (st : QueueState) : Prop :=
  (sync maxR (some deliver) st).state.store
    = st.store.filterMap (syncRecordResult (effMaxRetries maxR) deliver) ∧
  (∀ r ∈ st.store,
    syncRecordResult (effMaxRetries maxR) deliver r = none ∨
    syncRecordResult (effMaxRetries maxR) deliver r
      = some { r with retryCount := r.retryCount + 1 }) ∧
  (∀ r2 ∈ (sync maxR (some deliver) st).state.store,
    ∃ r ∈ st.store, r2.id = r.id ∧ r2.retryCount = r.retryCount + 1)

/-- Whether an observer callback is a submission-failed signal. -/
def isFailedEvent : QueueEvent → Bool
  | QueueEvent.submissionFailed _ _ => true
  | _ => false

/-- Whether an Except value is a resolved result. -/
def exceptOk {ε α : Type} : Except ε α → Bool
  | Except.ok _ => true
  | Except.error _ => false

end OfflineQueue

namespace FeedbackWidget

/-- Modelled from the spec for comparison with the source classifier: the
spec names the marker list network, fetch, timeout, offline and
connection-refused, compared case-insensitively against the error text. -/
def specNetworkClassified (e : String) : Bool :=
  ["network", "fetch", "timeout", "offline", "connection-refused"].any
    (fun m => strContains (lowerStr e) (lowerStr m))

/-- The four markers of the source list that can actually match once the
error text has been lowercased. -/
def liveMarkerMatch (e : String) : Bool :=
  ["network", "fetch", "timeout", "offline"].any (fun m => strContains (lowerStr e) m)

/-- Routing property of one submit call made online whose transport call
returned the failure response resp: a classified failure is enqueued and
acknowledged with the offline-marker identifier, an unclassified one is
surfaced unchanged to the caller with nothing enqueued. -/
def routesOnRespFailure (user : UserInfo) (ctx : FeedbackContext)
    (st : WidgetState) (fb : FeedbackInput) (now : Nat) (rand : String)
    (resp : SubmissionResponse) : Prop :=
  let out := submitFeedback user ctx (TransportOutcome.responded resp) st fb now rand
  (isNetworkError resp.error = true →
    out.1.success = true ∧
    out.1.feedback_id = some ("offline-" ++ genId now rand) ∧
    out.2.1.queueState.store = st.queueState.store
      ++ [mkQueuedRecord (buildSubmission user ctx fb) fb.screenshotUri now rand]) ∧
  (isNetworkError resp.error = false →
    out.1 = resp ∧ out.2.1.queueState.store = st.queueState.store ∧
    out.2.2 = [WidgetEvent.submitStartEv,
      WidgetEvent.submitErrorEv (resp.error.getD "Submission failed")])

/-- Routing property of one submit call made online whose transport call
rejected with the message msg: classified text is enqueued (the catch path
rebuilds the submission without the submitter fields), unclassified text is
surfaced as a failure response with nothing enqueued. -/
def routesOnThrown (user : UserInfo) (ctx : FeedbackContext)
    (st : WidgetState) (fb : FeedbackInput) (now : Nat) (rand : String)
    (msg : String) : Prop :=
  let out := submitFeedback user ctx (TransportOutcome.threw msg) st fb now rand
  (isNetworkError (some msg) = true →
    out.1.success = true ∧
    out.1.feedback_id = some ("offline-" ++ genId now rand) ∧
    out.2.1.queueState.store = st.queueState.store
      ++ [mkQueuedRecord (buildSubmission { name := none, email := none } ctx fb)
        fb.screenshotUri now rand]) ∧
  (isNetworkError (some msg) = false →
    out.1 = { success := false, error := some msg } ∧
    out.2.1.queueState.store = st.queueState.store ∧
    out.2.2 = [WidgetEvent.submitStartEv, WidgetEvent.submitErrorEv msg])

end FeedbackWidget

/-! ## Concrete scenario values -/

def sampleSubmission : FeedbackSubmission :=
  { type := FeedbackType.bug, priority := FeedbackPriority.high,
    title := "App crashes on launch",
    description := "The app crashes when I open it" }

def sampleRecord : QueuedSubmission :=
  { id := "1700000000000-abc1234", submission := sampleSubmission,
    createdAt := 1700000000000, retryCount := 0 }

def sampleRecord2 : QueuedSubmission :=
  { id := "1700000000001-def5678", submission := sampleSubmission,
    createdAt := 1700000000001, retryCount := 1 }

def sampleInput : FeedbackInput :=
  { type := FeedbackType.bug, priority := FeedbackPriority.high,
    title := "App crashes on launch",
    description := "The app crashes when I open it" }

def sampleCtx : FeedbackContext := {}

/-- A widget instance state that is offline and not mid-submission. -/
def offlineWidgetState : FeedbackWidget.WidgetState :=
  { isSubmitting := false,
    queueState := { store := [], isConnected := false, syncInProgress := false } }

/-- A widget instance state that is online and not mid-submission. -/
def onlineWidgetState : FeedbackWidget.WidgetState :=
  { isSubmitting := false,
    queueState := { store := [], isConnected := true, syncInProgress := false } }

/-- A monitor state that starts offline with live subscriptions. -/
def monitorOffline : OfflineQueue.MonitorState :=
  { queueState := { store := [], isConnected := false, syncInProgress := false },
    subscribed := true, pendingTimers := 0 }

/-- A monitor state after teardown with one settle-delay timer pending. -/
def monitorTornDown : OfflineQueue.MonitorState :=
  { queueState := { store := [], isConnected := true, syncInProgress := false },
    subscribed := false, pendingTimers := 1 }

/-! ## Helper lemmas about the store operations -/

lemma removeFromStore_eq_self (id : String) :
    ∀ l : List QueuedSubmission, (∀ q ∈ l, q.id ≠ id) → removeFromStore id l = l := by
  intro l
  induction l with
  | nil => intro _; rfl
  | cons q rest ih =>
    intro h
    simp only [removeFromStore]
    rw [if_neg (h q (by simp))]
    rw [ih fun p hp => h p (by simp [hp])]

lemma removeFromStore_append_mid (item : QueuedSubmission)
    (pre rest : List QueuedSubmission)
    (hpre : ∀ q ∈ pre, q.id ≠ item.id) (hrest : ∀ q ∈ rest, q.id ≠ item.id) :
    removeFromStore item.id (pre ++ item :: rest) = pre ++ rest := by
  induction pre with
  | nil =>
    simp only [List.nil_append, removeFromStore, if_pos rfl]
    exact removeFromStore_eq_self _ _ hrest
  | cons p ps ih =>
    simp only [List.cons_append, removeFromStore, List.append_eq]
    rw [if_neg (hpre p (by simp))]
    rw [ih fun q hq => hpre q (by simp [hq])]

lemma updateInStore_append_mid (item item1 : QueuedSubmission)
    (pre rest : List QueuedSubmission)
    (hid : item1.id = item.id)
    (hpre : ∀ q ∈ pre, q.id ≠ item.id) :
    updateInStore item1 (pre ++ item :: rest) = pre ++ item1 :: rest := by
  induction pre with
  | nil => simp [updateInStore, hid]
  | cons p ps ih =>
    simp only [List.cons_append, updateInStore, hid, List.append_eq]
    rw [if_neg (hpre p (by simp))]
    rw [ih fun q hq => hpre q (by simp [hq])]

namespace OfflineQueue

/-- Characterization of one drain pass: processing a snapshot whose ids are
fresh in the untouched pre part of the store yields the pointwise record
results, the pointwise counters, the pointwise observer callbacks and the
attempted ids in snapshot order. -/
lemma runPass_spec (maxR : Nat) (deliver : QueuedSubmission → DeliveryOutcome) :
    ∀ (snap pre : List QueuedSubmission) (s f : Nat)
      (evs : List QueueEvent) (att : List String),
      (snap.map QueuedSubmission.id).Nodup →
      (∀ p ∈ pre, ∀ q ∈ snap, p.id ≠ q.id) →
      runPass maxR deliver snap
        { store := pre ++ snap, succeeded := s, failed := f,
          events := evs, attempts := att } =
      { store := pre ++ snap.filterMap (syncRecordResult maxR deliver)
        succeeded := s + snap.countP (fun r => attemptSucceeds maxR deliver r)
        failed := f + snap.countP (fun r => !attemptSucceeds maxR deliver r)
        events := evs ++ (snap.map (recordEvents maxR deliver)).flatten
        attempts := att ++ (snap.filter (fun r => decide (r.retryCount < maxR))).map
          QueuedSubmission.id } := by
  intro snap
  induction snap with
  | nil => intro pre s f evs att _ _; simp [runPass]
  | cons item rest ih =>
    intro pre s f evs att hnodup hdisj
    have hids : item.id ∉ rest.map QueuedSubmission.id := by
      have := hnodup
      rw [List.map_cons, List.nodup_cons] at this
      exact this.1
    have hrest : ∀ q ∈ rest, q.id ≠ item.id := by
      intro q hq heq
      exact hids (by rw [← heq]; exact List.mem_map_of_mem _ hq)
    have hpre : ∀ q ∈ pre, q.id ≠ item.id := fun q hq => hdisj q hq item (by simp)
    have hnodup2 : (rest.map QueuedSubmission.id).Nodup := by
      rw [List.map_cons, List.nodup_cons] at hnodup
      exact hnodup.2
    by_cases hmax : maxR ≤ item.retryCount
    · simp only [runPass, if_pos hmax]
      rw [removeFromStore_append_mid item pre rest hpre hrest]
      rw [ih pre s (f + 1) _ _ hnodup2
        (fun p hp q hq => hdisj p hp q (by simp [hq]))]
      simp only [syncRecordResult, attemptSucceeds, recordEvents, if_pos hmax,
        List.filterMap_cons, List.countP_cons, List.filter_cons, List.map_cons,
        List.flatten_cons]
      have hlt : ¬ item.retryCount < maxR := not_lt.mpr hmax
      simp [hlt, List.append_assoc]
      omega
    · have hlt : item.retryCount < maxR := not_le.mp hmax
      cases hdel : deliver item with
      | success =>
        simp only [runPass, if_neg hmax, hdel]
        rw [removeFromStore_append_mid item pre rest hpre hrest]
        rw [ih pre (s + 1) f _ _ hnodup2
          (fun p hp q hq => hdisj p hp q (by simp [hq]))]
        simp only [syncRecordResult, attemptSucceeds, recordEvents, if_neg hmax, hdel,
          List.filterMap_cons, List.countP_cons, List.filter_cons, List.map_cons,
          List.flatten_cons]
        simp [hlt, List.append_assoc]
        omega
      | failure =>
        simp only [runPass, if_neg hmax, hdel]
        rw [updateInStore_append_mid item { item with retryCount := item.retryCount + 1 }
          pre rest rfl hpre]
        rw [show pre ++ { item with retryCount := item.retryCount + 1 } :: rest
          = (pre ++ [{ item with retryCount := item.retryCount + 1 }]) ++ rest by simp]
        have hdisj2 : ∀ p ∈ pre ++ [{ item with retryCount := item.retryCount + 1 }],
            ∀ q ∈ rest, p.id ≠ q.id := by
          intro p hp q hq
          rcases List.mem_append.mp hp with hp1 | hp1
          · exact hdisj p hp1 q (by simp [hq])
          · have hpe : p = { item with retryCount := item.retryCount + 1 } := by
              simpa using hp1
            subst hpe
            exact fun h => hrest q hq h.symm
        have hih := ih (pre ++ [{ item with retryCount := item.retryCount + 1 }]) s (f + 1)
          evs (att ++ [item.id]) hnodup2 hdisj2
        rw [hih]
        simp only [syncRecordResult, attemptSucceeds, recordEvents, if_neg hmax, hdel,
          List.filterMap_cons, List.countP_cons, List.filter_cons, List.map_cons,
          List.flatten_cons]
        simp [hlt, List.append_assoc]
        omega
      | thrown msg =>
        simp only [runPass, if_neg hmax, hdel]
        rw [updateInStore_append_mid item { item with retryCount := item.retryCount + 1 }
          pre rest rfl hpre]
        rw [show pre ++ { item with retryCount := item.retryCount + 1 } :: rest
          = (pre ++ [{ item with retryCount := item.retryCount + 1 }]) ++ rest by simp]
        have hdisj2 : ∀ p ∈ pre ++ [{ item with retryCount := item.retryCount + 1 }],
            ∀ q ∈ rest, p.id ≠ q.id := by
          intro p hp q hq
          rcases List.mem_append.mp hp with hp1 | hp1
          · exact hdisj p hp1 q (by simp [hq])
          · have hpe : p = { item with retryCount := item.retryCount + 1 } := by
              simpa using hp1
            subst hpe
            exact fun h => hrest q hq h.symm
        have hih := ih (pre ++ [{ item with retryCount := item.retryCount + 1 }]) s (f + 1)
          (evs ++ [QueueEvent.submissionFailed item.id msg]) (att ++ [item.id]) hnodup2 hdisj2
        rw [hih]
        simp only [syncRecordResult, attemptSucceeds, recordEvents, if_neg hmax, hdel,
          List.filterMap_cons, List.countP_cons, List.filter_cons, List.map_cons,
          List.flatten_cons]
        simp [hlt, List.append_assoc]
        omega

/-- Characterization of one full sync call in the open state: connected, no
pass in progress, a delivery function registered, and distinct ids in the
stored queue. -/
lemma sync_spec (maxR : Nat) (deliver : QueuedSubmission → DeliveryOutcome)
    (st : QueueState)
    (hc : st.isConnected = true) (hp : st.syncInProgress = false)
    (hnodup : (st.store.map QueuedSubmission.id).Nodup) :
    sync maxR (some deliver) st = syncSpecOutput maxR deliver st.store := by
  have hguard : (!st.isConnected || st.syncInProgress
      || (some deliver : Option (QueuedSubmission → DeliveryOutcome)).isNone) = false := by
    simp [hc, hp]
  simp only [sync, hguard, Bool.false_eq_true, if_false]
  have := runPass_spec (effMaxRetries maxR) deliver st.store [] 0 0 [] []
    hnodup (by intro p hp _ _; simp at hp)
  simp only [List.nil_append] at this
  rw [this]
  simp [syncSpecOutput, hc]

end OfflineQueue

/-! ## Helper lemmas about the error classifier -/

lemma lowerChar_ne_E (c : Char) : lowerChar c ≠ 'E' := by
  unfold lowerChar
  split_ifs with h
  · intro heq
    have hval : (Char.ofNat (c.toNat + 32)).toNat = c.toNat + 32 := by
      have hv : (c.toNat + 32).isValidChar := Or.inl (by omega)
      rw [Char.ofNat, dif_pos hv]
      simp [Char.ofNatAux, Char.toNat, UInt32.toNat, BitVec.toNat_ofNatLt]
    rw [heq] at hval
    have hE : ('E' : Char).toNat = 69 := rfl
    rw [hE] at hval
    omega
  · intro heq
    rw [heq] at h
    exact h (by decide)

lemma charsContainSub_head_not_mem (a : Char) (sub : List Char) :
    ∀ l : List Char, a ∉ l → charsContainSub (a :: sub) l = false := by
  intro l
  induction l with
  | nil => intro _; rfl
  | cons b bs ih =>
    intro h
    have hab : (a == b) = false := by
      simp only [beq_eq_false_iff_ne]
      intro he
      exact h (he ▸ List.mem_cons_self b bs)
    simp [charsContainSub, charsPrefOf, hab,
      ih fun hm => h (List.mem_cons_of_mem b hm)]

lemma strContains_econnrefused (s : String) :
    strContains (lowerStr s) "ECONNREFUSED" = false := by
  have hE : 'E' ∉ (lowerStr s).data := by
    have hdata : (lowerStr s).data = s.data.map lowerChar := rfl
    rw [hdata]
    intro hmem
    rcases List.mem_map.mp hmem with ⟨c, _, hc⟩
    exact lowerChar_ne_E c hc
  have hms : ("ECONNREFUSED" : String).data = 'E' :: ("CONNREFUSED" : String).data := by
    decide
  simp only [strContains, hms]
  exact charsContainSub_head_not_mem _ _ _ hE

/-- The uppercase marker in the source list is dead once the error text is
lowercased: the classifier agrees with the four live markers. -/
lemma isNetworkError_eq_live (e : String) :
    FeedbackWidget.isNetworkError (some e) = FeedbackWidget.liveMarkerMatch e := by
  simp [FeedbackWidget.isNetworkError, FeedbackWidget.networkErrorMarkers,
    FeedbackWidget.liveMarkerMatch, strContains_econnrefused e]

/-! ## Helper lemmas for the drained-queue shape -/

lemma flatten_singleton_map {α β : Type} (g : α → β) :
    ∀ l : List α, (l.map fun a => [g a]).flatten = l.map g := by
  intro l
  induction l with
  | nil => rfl
  | cons a as ih => simp [ih]

namespace OfflineQueue

/-- With an always-resolving write oracle, the exception-aware pass always
resolves. -/
lemma runPassE_ok (maxR : Nat) (deliver : QueuedSubmission → DeliveryOutcome) :
    ∀ (snap : List QueuedSubmission) (ps : PassStateE),
      ∃ out, runPassE maxR deliver (fun _ => none) snap ps = Except.ok out := by
  intro snap
  induction snap with
  | nil => intro ps; exact ⟨ps, rfl⟩
  | cons item rest ih =>
    intro ps
    by_cases h : maxR ≤ item.retryCount
    · simp only [runPassE, if_pos h]
      exact ih _
    · simp only [runPassE, if_neg h]
      cases deliver item with
      | success => exact ih _
      | failure =>
        simp only []
        split
        · exact ih _
        · exact ih _
      | thrown msg =>
        simp only []
        split
        · exact ih _
        · exact ih _

end OfflineQueue

/-! ## Claim theorems -/

/-- Claim C5: whenever sync is invoked while offline, while another pass is
still in progress, or before a delivery function has been registered, it
returns zero counts immediately, leaves the persisted queue and the whole
instance state untouched, fires no callbacks, and invokes the delivery
function on no record, so no record can be processed twice by a second
overlapping call. -/
theorem C5_sync_noop_guard (maxR : Nat)
    (deliver : Option (QueuedSubmission → OfflineQueue.DeliveryOutcome))
    (st : OfflineQueue.QueueState)
    (h : st.isConnected = false ∨ st.syncInProgress = true ∨ deliver = none) :
    OfflineQueue.sync maxR deliver st =
      { state := st, succeeded := 0, failed := 0, events := [], attempts := [] } := by
  rcases h with h | h | h
  · simp [OfflineQueue.sync, h]
  · simp [OfflineQueue.sync, h]
  · subst h
    simp [OfflineQueue.sync]

/-- Witness for C5 at a concrete state whose pass is already in progress. -/
theorem C5_sync_noop_guard_witness :
    OfflineQueue.sync 3 (some fun _ => OfflineQueue.DeliveryOutcome.success)
      { store := [sampleRecord], isConnected := true, syncInProgress := true } =
      { state := { store := [sampleRecord], isConnected := true, syncInProgress := true },
        succeeded := 0, failed := 0, events := [], attempts := [] } :=
  C5_sync_noop_guard 3 _ _ (Or.inr (Or.inl rfl))

/-- Claim C10: every static facade operation is total on the uninitialized
state: submit answers the not-initialized failure response without
creating an instance, getPendingCount answers zero, syncOffline answers
zero counts, and isOnline answers true. -/
theorem C10_uninitialized_total (user : UserInfo) (ctx : FeedbackContext)
    (transport : FeedbackWidget.TransportOutcome) (fb : FeedbackInput)
    (now : Nat) (rand : String) (maxR : Nat)
    (deliver : Option (QueuedSubmission → OfflineQueue.DeliveryOutcome)) :
    FeedbackWidget.submitS none user ctx transport fb now rand
      = ({ success := false, feedback_id := none,
           error := some "FeedbackWidget not initialized" }, none) ∧
    FeedbackWidget.getPendingCountS none = 0 ∧
    FeedbackWidget.syncOfflineS none maxR deliver = (0, 0) ∧
    FeedbackWidget.isOnlineS none = true :=
  ⟨rfl, rfl, rfl, rfl⟩

/-- Claim C8 (amended): sync never propagates delivery-function rejections
or storage read failures — with every storage write resolving, the
exception-aware sync resolves for every state, every delivery function
including throwing ones, and regardless of a failing initial read.  A
failing storage write, however, escapes sync, as the counterexample
shows. -/
theorem C8_amended_no_throw (maxR : Nat)
    (deliver : Option (QueuedSubmission → OfflineQueue.DeliveryOutcome))
    (readFails : Bool) (st : OfflineQueue.QueueState) :
    OfflineQueue.exceptOk
      (OfflineQueue.syncExc maxR deliver (fun _ => none) readFails st) = true := by
  by_cases hg : (!st.isConnected || st.syncInProgress || deliver.isNone) = true
  · simp [OfflineQueue.syncExc, hg, OfflineQueue.exceptOk]
  · cases deliver with
    | none => simp at hg
    | some f =>
      rw [OfflineQueue.syncExc, if_neg hg]
      obtain ⟨out, hout⟩ := OfflineQueue.runPassE_ok (OfflineQueue.effMaxRetries maxR) f
        (if readFails then [] else st.store)
        { store := st.store, succeeded := 0, failed := 0, events := [],
          attempts := [], writes := 0 }
      simp only [hout]
      rfl

/-- Claim C8 counterexample: with one record over the retry bound and the
first storage write rejecting, the rejection escapes sync to its caller,
so sync can throw on a storage write failure. -/
theorem C8_counterexample :
    OfflineQueue.syncExc 3 (some fun _ => OfflineQueue.DeliveryOutcome.success)
      (fun _ => some "storage write failed") false
      { store := [{ sampleRecord with retryCount := 3 }],
        isConnected := true, syncInProgress := false }
      = Except.error "storage write failed" := by
  rfl

/-- Claim C9 (amended): after destroy the two listener subscriptions fire
no further callbacks and change nothing, and destroy leaves any pending
settle-delay timer in place, so a timer scheduled before destroy still
fires and initiates a sync attempt. -/
theorem C9_amended_teardown (maxR : Nat)
    (d : Option (QueuedSubmission → OfflineQueue.DeliveryOutcome))
    (st : OfflineQueue.MonitorState) (h : st.subscribed = false)
    (c : Bool) (s : String) :
    OfflineQueue.monitorStep maxR d st (OfflineQueue.ExtEvent.netChange c) = (st, false) ∧
    OfflineQueue.monitorStep maxR d st (OfflineQueue.ExtEvent.appState s) = (st, false) ∧
    (OfflineQueue.monitorStep maxR d st OfflineQueue.ExtEvent.destroyCall).1.pendingTimers
      = st.pendingTimers ∧
    (0 < st.pendingTimers →
      (OfflineQueue.monitorStep maxR d st OfflineQueue.ExtEvent.timerFire).2 = true) := by
  refine ⟨?_, ?_, rfl, ?_⟩
  · simp [OfflineQueue.monitorStep, h]
  · simp [OfflineQueue.monitorStep, h]
  · intro hp
    simp [OfflineQueue.monitorStep, hp]

/-- Witness for the amended C9 at a torn-down monitor with one pending
settle-delay timer. -/
theorem C9_amended_teardown_witness :
    monitorTornDown.subscribed = false ∧
    (OfflineQueue.monitorStep 3 (some fun _ => OfflineQueue.DeliveryOutcome.success)
        monitorTornDown (OfflineQueue.ExtEvent.netChange true)
      = (monitorTornDown, false) ∧
    OfflineQueue.monitorStep 3 (some fun _ => OfflineQueue.DeliveryOutcome.success)
        monitorTornDown (OfflineQueue.ExtEvent.appState "active")
      = (monitorTornDown, false) ∧
    (OfflineQueue.monitorStep 3 (some fun _ => OfflineQueue.DeliveryOutcome.success)
        monitorTornDown OfflineQueue.ExtEvent.destroyCall).1.pendingTimers
      = monitorTornDown.pendingTimers ∧
    (0 < monitorTornDown.pendingTimers →
      (OfflineQueue.monitorStep 3 (some fun _ => OfflineQueue.DeliveryOutcome.success)
        monitorTornDown OfflineQueue.ExtEvent.timerFire).2 = true)) :=
  ⟨rfl, C9_amended_teardown 3 _ monitorTornDown rfl true "active"⟩

/-- Claim C9 counterexample: starting offline with live subscriptions, a
reconnection schedules a settle-delay sync, destroy then tears the monitor
down, and the already scheduled timer still fires a sync attempt. -/
theorem C9_counterexample :
    (let d : Option (QueuedSubmission → OfflineQueue.DeliveryOutcome) :=
      some fun _ => OfflineQueue.DeliveryOutcome.success
     let s1 := (OfflineQueue.monitorStep 3 d monitorOffline
       (OfflineQueue.ExtEvent.netChange true)).1
     let s2 := (OfflineQueue.monitorStep 3 d s1 OfflineQueue.ExtEvent.destroyCall).1
     s2.subscribed = false ∧
     (OfflineQueue.monitorStep 3 d s2 OfflineQueue.ExtEvent.timerFire).2 = true) :=
  ⟨rfl, rfl⟩

/-- Claim C1 counterexample: with maxRetries 3 and an always-failing
delivery function, the concrete record is still queued after the third
pass, and the fourth sync call reports one failed rather than zero
counts. -/
theorem C1_counterexample :
    (let d : Option (QueuedSubmission → OfflineQueue.DeliveryOutcome) :=
      some fun _ => OfflineQueue.DeliveryOutcome.failure
     let o1 := OfflineQueue.sync 3 d
       { store := [sampleRecord], isConnected := true, syncInProgress := false }
     let o2 := OfflineQueue.sync 3 d o1.state
     let o3 := OfflineQueue.sync 3 d o2.state
     let o4 := OfflineQueue.sync 3 d o3.state
     o3.state.store ≠ [] ∧ ¬(o4.succeeded = 0 ∧ o4.failed = 0 ∧ o4.state.store = [])) := by
  refine ⟨?_, ?_⟩ <;> decide

/-- Claim C1 (amended): with maxRetries 3 and an always-failing delivery
function, three sync passes leave the record queued with retryCount 3; the
fourth pass evicts it and reports zero succeeded and one failed; the fifth
pass reports zero and zero over the then-empty queue. -/
theorem C1_amended_eviction_on_fourth_pass (r : QueuedSubmission)
    (h : r.retryCount = 0) :
    (let d : Option (QueuedSubmission → OfflineQueue.DeliveryOutcome) :=
      some fun _ => OfflineQueue.DeliveryOutcome.failure
     let o1 := OfflineQueue.sync 3 d
       { store := [r], isConnected := true, syncInProgress := false }
     let o2 := OfflineQueue.sync 3 d o1.state
     let o3 := OfflineQueue.sync 3 d o2.state
     let o4 := OfflineQueue.sync 3 d o3.state
     let o5 := OfflineQueue.sync 3 d o4.state
     o3.state.store = [{ r with retryCount := 3 }] ∧ o3.succeeded = 0 ∧ o3.failed = 1 ∧
     o4.succeeded = 0 ∧ o4.failed = 1 ∧ o4.state.store = [] ∧
     o5.succeeded = 0 ∧ o5.failed = 0 ∧ o5.state.store = []) := by
  simp [OfflineQueue.sync, OfflineQueue.runPass, OfflineQueue.effMaxRetries,
    updateInStore, removeFromStore, h]

/-- Witness for the amended C1 at the concrete sample record. -/
theorem C1_amended_eviction_witness :
    sampleRecord.retryCount = 0 ∧
    (let d : Option (QueuedSubmission → OfflineQueue.DeliveryOutcome) :=
      some fun _ => OfflineQueue.DeliveryOutcome.failure
     let o1 := OfflineQueue.sync 3 d
       { store := [sampleRecord], isConnected := true, syncInProgress := false }
     let o2 := OfflineQueue.sync 3 d o1.state
     let o3 := OfflineQueue.sync 3 d o2.state
     let o4 := OfflineQueue.sync 3 d o3.state
     let o5 := OfflineQueue.sync 3 d o4.state
     o3.state.store = [{ sampleRecord with retryCount := 3 }] ∧
     o3.succeeded = 0 ∧ o3.failed = 1 ∧
     o4.succeeded = 0 ∧ o4.failed = 1 ∧ o4.state.store = [] ∧
     o5.succeeded = 0 ∧ o5.failed = 0 ∧ o5.state.store = []) :=
  ⟨rfl, C1_amended_eviction_on_fourth_pass sampleRecord rfl⟩

/-- Claim C4 counterexample: a pass over the concrete record whose delivery
resolves to false counts one failure, yet fires no submission-failed
callback, contradicting the claim that both failure shapes signal the
observer. -/
theorem C4_counterexample :
    (let o := OfflineQueue.sync 3 (some fun _ => OfflineQueue.DeliveryOutcome.failure)
        { store := [sampleRecord], isConnected := true, syncInProgress := false }
     o.failed = 1 ∧ o.events.any OfflineQueue.isFailedEvent = false) := by
  refine ⟨?_, ?_⟩ <;> decide

/-- Claim C4 (amended): a failing delivery attempt increments the record,
persists it, counts it as failed and leaves it queued; the submission-failed
observer callback with the error detail fires only when the delivery
function throws, not when it merely resolves to false. -/
theorem C4_amended_failure_branches (r : QueuedSubmission) (maxR : Nat)
    (msg : String) (h : r.retryCount < OfflineQueue.effMaxRetries maxR) :
    (let oF := OfflineQueue.sync maxR (some fun _ => OfflineQueue.DeliveryOutcome.failure)
        { store := [r], isConnected := true, syncInProgress := false }
     oF.state.store = [{ r with retryCount := r.retryCount + 1 }] ∧
     oF.succeeded = 0 ∧ oF.failed = 1 ∧
     oF.events = [OfflineQueue.QueueEvent.syncStart,
       OfflineQueue.QueueEvent.syncComplete 0 1] ∧
     oF.events.any OfflineQueue.isFailedEvent = false) ∧
    (let oT := OfflineQueue.sync maxR (some fun _ => OfflineQueue.DeliveryOutcome.thrown msg)
        { store := [r], isConnected := true, syncInProgress := false }
     oT.state.store = [{ r with retryCount := r.retryCount + 1 }] ∧
     oT.succeeded = 0 ∧ oT.failed = 1 ∧
     oT.events = [OfflineQueue.QueueEvent.syncStart,
       OfflineQueue.QueueEvent.submissionFailed r.id msg,
       OfflineQueue.QueueEvent.syncComplete 0 1]) := by
  have hmax : ¬ OfflineQueue.effMaxRetries maxR ≤ r.retryCount := not_le.mpr h
  constructor
  · simp [OfflineQueue.sync, OfflineQueue.runPass, updateInStore, hmax,
      OfflineQueue.isFailedEvent]
  · simp [OfflineQueue.sync, OfflineQueue.runPass, updateInStore, hmax]

/-- Witness for the amended C4 at the concrete sample record. -/
theorem C4_amended_failure_witness :
    sampleRecord.retryCount < OfflineQueue.effMaxRetries 3 ∧
    ((let oF := OfflineQueue.sync 3 (some fun _ => OfflineQueue.DeliveryOutcome.failure)
        { store := [sampleRecord], isConnected := true, syncInProgress := false }
     oF.state.store = [{ sampleRecord with retryCount := sampleRecord.retryCount + 1 }] ∧
     oF.succeeded = 0 ∧ oF.failed = 1 ∧
     oF.events = [OfflineQueue.QueueEvent.syncStart,
       OfflineQueue.QueueEvent.syncComplete 0 1] ∧
     oF.events.any OfflineQueue.isFailedEvent = false) ∧
    (let oT := OfflineQueue.sync 3 (some fun _ => OfflineQueue.DeliveryOutcome.thrown "boom")
        { store := [sampleRecord], isConnected := true, syncInProgress := false }
     oT.state.store = [{ sampleRecord with retryCount := sampleRecord.retryCount + 1 }] ∧
     oT.succeeded = 0 ∧ oT.failed = 1 ∧
     oT.events = [OfflineQueue.QueueEvent.syncStart,
       OfflineQueue.QueueEvent.submissionFailed sampleRecord.id "boom",
       OfflineQueue.QueueEvent.syncComplete 0 1])) :=
  ⟨by decide, C4_amended_failure_branches sampleRecord 3 "boom" (by decide)⟩

/-- Claim C6: draining a queue of records below the retry bound with an
always-succeeding delivery function empties the persisted queue, reports
length-many succeeded and zero failed, and delivers in insertion order. -/
theorem C6_drain_all_success (maxR : Nat) (st : OfflineQueue.QueueState)
    (hnodup : (st.store.map QueuedSubmission.id).Nodup)
    (hc : st.isConnected = true) (hp : st.syncInProgress = false)
    (hlt : ∀ r ∈ st.store, r.retryCount < OfflineQueue.effMaxRetries maxR) :
    OfflineQueue.sync maxR (some fun _ => OfflineQueue.DeliveryOutcome.success) st =
      { state := { store := [], isConnected := true, syncInProgress := false },
        succeeded := st.store.length, failed := 0,
        events := OfflineQueue.QueueEvent.syncStart ::
          st.store.map (fun r => OfflineQueue.QueueEvent.submissionSynced r.id)
          ++ [OfflineQueue.QueueEvent.syncComplete st.store.length 0],
        attempts := st.store.map QueuedSubmission.id } := by
  rw [OfflineQueue.sync_spec maxR _ st hc hp hnodup]
  unfold OfflineQueue.syncSpecOutput
  have h1 : st.store.filterMap
      (OfflineQueue.syncRecordResult (OfflineQueue.effMaxRetries maxR)
        (fun _ => OfflineQueue.DeliveryOutcome.success)) = [] := by
    rw [List.filterMap_eq_nil_iff]
    intro r hr
    simp [OfflineQueue.syncRecordResult, not_le.mpr (hlt r hr)]
  have h2 : st.store.countP
      (fun r => OfflineQueue.attemptSucceeds (OfflineQueue.effMaxRetries maxR)
        (fun _ => OfflineQueue.DeliveryOutcome.success) r) = st.store.length := by
    rw [List.countP_eq_length]
    intro r hr
    simp [OfflineQueue.attemptSucceeds, not_le.mpr (hlt r hr)]
  have h3 : st.store.countP
      (fun r => !OfflineQueue.attemptSucceeds (OfflineQueue.effMaxRetries maxR)
        (fun _ => OfflineQueue.DeliveryOutcome.success) r) = 0 := by
    rw [List.countP_eq_zero]
    intro r hr
    simp [OfflineQueue.attemptSucceeds, not_le.mpr (hlt r hr)]
  have h4 : st.store.map
      (OfflineQueue.recordEvents (OfflineQueue.effMaxRetries maxR)
        (fun _ => OfflineQueue.DeliveryOutcome.success))
      = st.store.map (fun r => [OfflineQueue.QueueEvent.submissionSynced r.id]) := by
    apply List.map_congr_left
    intro r hr
    simp [OfflineQueue.recordEvents, not_le.mpr (hlt r hr)]
  have h5 : st.store.filter
      (fun r => decide (r.retryCount < OfflineQueue.effMaxRetries maxR)) = st.store := by
    rw [List.filter_eq_self]
    intro r hr
    simpa using hlt r hr
  simp only [h1, h2, h3, h4, h5, flatten_singleton_map]

/-- Witness for C6 at a concrete two-record queue. -/
theorem C6_drain_all_success_witness :
    ([sampleRecord, sampleRecord2].map QueuedSubmission.id).Nodup ∧
    OfflineQueue.sync 3 (some fun _ => OfflineQueue.DeliveryOutcome.success)
      { store := [sampleRecord, sampleRecord2], isConnected := true,
        syncInProgress := false } =
      { state := { store := [], isConnected := true, syncInProgress := false },
        succeeded := [sampleRecord, sampleRecord2].length, failed := 0,
        events := OfflineQueue.QueueEvent.syncStart ::
          [sampleRecord, sampleRecord2].map
            (fun r => OfflineQueue.QueueEvent.submissionSynced r.id)
          ++ [OfflineQueue.QueueEvent.syncComplete
            [sampleRecord, sampleRecord2].length 0],
        attempts := [sampleRecord, sampleRecord2].map QueuedSubmission.id } :=
  ⟨by decide,
    C6_drain_all_success 3
      { store := [sampleRecord, sampleRecord2], isConnected := true,
        syncInProgress := false }
      (by decide) rfl rfl (by decide)⟩

/-- Claim C7: a submit call made while the widget is offline and not
mid-submission answers success carrying the offline-marker identifier, and
the pending count grows by exactly one. -/
theorem C7_offline_submit_queues (user : UserInfo) (ctx : FeedbackContext)
    (transport : FeedbackWidget.TransportOutcome) (st : FeedbackWidget.WidgetState)
    (fb : FeedbackInput) (now : Nat) (rand : String)
    (hsub : st.isSubmitting = false) (hoff : st.queueState.isConnected = false) :
    (let out := FeedbackWidget.submitFeedback user ctx transport st fb now rand
     out.1.success = true ∧
     out.1.feedback_id = some ("offline-" ++ genId now rand) ∧
     FeedbackWidget.getPendingCountS (some out.2.1)
       = FeedbackWidget.getPendingCountS (some st) + 1) := by
  simp [FeedbackWidget.submitFeedback, hsub, hoff, FeedbackWidget.queueSubmission,
    OfflineQueue.enqueue, FeedbackWidget.getPendingCountS, OfflineQueue.getPendingCount,
    mkQueuedRecord]

/-- Witness for C7 at the concrete offline widget state. -/
theorem C7_offline_submit_queues_witness :
    offlineWidgetState.isSubmitting = false ∧
    offlineWidgetState.queueState.isConnected = false ∧
    (let out := FeedbackWidget.submitFeedback { name := none, email := none } sampleCtx
      (FeedbackWidget.TransportOutcome.threw "unreachable") offlineWidgetState
      sampleInput 5 "zzz"
     out.1.success = true ∧
     out.1.feedback_id = some ("offline-" ++ genId 5 "zzz") ∧
     FeedbackWidget.getPendingCountS (some out.2.1)
       = FeedbackWidget.getPendingCountS (some offlineWidgetState) + 1) :=
  ⟨rfl, rfl,
    C7_offline_submit_queues { name := none, email := none } sampleCtx
      (FeedbackWidget.TransportOutcome.threw "unreachable") offlineWidgetState
      sampleInput 5 "zzz" rfl rfl⟩

/-- Claim C2 counterexample: the error text connection-refused matches the
marker list named by the claim, yet the source classifier rejects it (the
uppercase ECONNREFUSED entry cannot match a lowercased text), so such a
failure is surfaced to the caller instead of being enqueued. -/
theorem C2_counterexample :
    FeedbackWidget.specNetworkClassified "connection-refused" = true ∧
    FeedbackWidget.isNetworkError (some "connection-refused") = false ∧
    (let out := FeedbackWidget.submitFeedback { name := none, email := none } sampleCtx
      (FeedbackWidget.TransportOutcome.responded
        { success := false, error := some "connection-refused" })
      onlineWidgetState sampleInput 5 "zzz"
     out.1.success = false ∧ out.2.1.queueState.store = []) := by
  refine ⟨?_, ?_, ?_, ?_⟩ <;> decide

/-- Claim C2 (amended): a delivery failure is classified network-related
iff its lowercased text contains one of network, fetch, timeout or offline
— the fifth source marker ECONNREFUSED can never match because the text is
lowercased first — and a classified failure is enqueued (in particular the
text Network request failed), while an unclassified one is surfaced to the
caller as a terminal error and never enqueued, for returned failure
responses and thrown errors alike. -/
theorem C2_amended_classification (user : UserInfo) (ctx : FeedbackContext)
    (st : FeedbackWidget.WidgetState) (fb : FeedbackInput) (now : Nat) (rand : String)
    (resp : SubmissionResponse) (msg : String)
    (hsub : st.isSubmitting = false) (hon : st.queueState.isConnected = true)
    (hfail : resp.success = false) :
    (∀ e, FeedbackWidget.isNetworkError (some e) = FeedbackWidget.liveMarkerMatch e) ∧
    FeedbackWidget.isNetworkError (some "Network request failed") = true ∧
    FeedbackWidget.routesOnRespFailure user ctx st fb now rand resp ∧
    FeedbackWidget.routesOnThrown user ctx st fb now rand msg := by
  refine ⟨isNetworkError_eq_live, by decide, ?_, ?_⟩
  · unfold FeedbackWidget.routesOnRespFailure
    constructor
    · intro hcls
      simp [FeedbackWidget.submitFeedback, hsub, hon, hfail, hcls,
        FeedbackWidget.queueSubmission, OfflineQueue.enqueue, mkQueuedRecord, genId]
    · intro hcls
      simp [FeedbackWidget.submitFeedback, hsub, hon, hfail, hcls]
  · unfold FeedbackWidget.routesOnThrown
    constructor
    · intro hcls
      simp [FeedbackWidget.submitFeedback, hsub, hon, hcls,
        FeedbackWidget.queueSubmission, OfflineQueue.enqueue, mkQueuedRecord, genId]
    · intro hcls
      simp [FeedbackWidget.submitFeedback, hsub, hon, hcls]

/-- Witness for the amended C2 at concrete inputs: an unclassified returned
failure text and a classified thrown error text. -/
theorem C2_amended_classification_witness :
    onlineWidgetState.isSubmitting = false ∧
    onlineWidgetState.queueState.isConnected = true ∧
    (({ success := false, error := some "Invalid title" } : SubmissionResponse).success
      = false) ∧
    ((∀ e, FeedbackWidget.isNetworkError (some e) = FeedbackWidget.liveMarkerMatch e) ∧
     FeedbackWidget.isNetworkError (some "Network request failed") = true ∧
     FeedbackWidget.routesOnRespFailure { name := none, email := none } sampleCtx
       onlineWidgetState sampleInput 5 "zzz"
       { success := false, error := some "Invalid title" } ∧
     FeedbackWidget.routesOnThrown { name := none, email := none } sampleCtx
       onlineWidgetState sampleInput 5 "zzz" "timeout") :=
  ⟨rfl, rfl, rfl,
    C2_amended_classification { name := none, email := none } sampleCtx
      onlineWidgetState sampleInput 5 "zzz"
      { success := false, error := some "Invalid title" } "timeout" rfl rfl rfl⟩

/-- Claim C3: the record created by enqueue carries retryCount zero and the
id stamped at enqueue time; one sync pass over a queue with distinct ids
rewrites the store pointwise, every record either being removed (success
or eviction) or surviving with the same id and a retryCount exactly one
higher — never more, never less — so retryCount never decreases and the
engine changes, adds or reuses no id. -/
theorem C3_retry_and_id_invariants
    (sub : FeedbackSubmission) (shot : Option String) (now : Nat) (rand : String)
    (store : List QueuedSubmission) (maxR : Nat)
    (deliver : QueuedSubmission → OfflineQueue.DeliveryOutcome)
    (st : OfflineQueue.QueueState)
    (hnodup : (st.store.map QueuedSubmission.id).Nodup)
    (hc : st.isConnected = true) (hp : st.syncInProgress = false) :
    (mkQueuedRecord sub shot now rand).retryCount = 0 ∧
    OfflineQueue.enqueue sub shot now rand store
      = (genId now rand, store ++ [mkQueuedRecord sub shot now rand]) ∧
    OfflineQueue.passPointwiseSpec maxR deliver st := by
  refine ⟨rfl, rfl, ?_, ?_, ?_⟩
  · rw [OfflineQueue.sync_spec maxR deliver st hc hp hnodup]
    simp [OfflineQueue.syncSpecOutput]
  · intro r _
    unfold OfflineQueue.syncRecordResult
    split_ifs
    · exact Or.inl rfl
    · cases hdel : deliver r with
      | success => simp [hdel]
      | failure => simp [hdel]
      | thrown msg => simp [hdel]
  · intro r2 h2
    rw [OfflineQueue.sync_spec maxR deliver st hc hp hnodup] at h2
    simp only [OfflineQueue.syncSpecOutput] at h2
    rcases List.mem_filterMap.mp h2 with ⟨r, hr, hfr⟩
    refine ⟨r, hr, ?_⟩
    unfold OfflineQueue.syncRecordResult at hfr
    split_ifs at hfr
    cases hdel : deliver r <;> rw [hdel] at hfr
    · exact absurd hfr (by simp)
    · cases Option.some.inj hfr
      exact ⟨rfl, rfl⟩
    · cases Option.some.inj hfr
      exact ⟨rfl, rfl⟩

/-- Witness for C3 at concrete inputs: a fresh enqueue and one failing pass
over a single-record queue. -/
theorem C3_retry_and_id_invariants_witness :
    (([sampleRecord].map QueuedSubmission.id).Nodup) ∧
    ((mkQueuedRecord sampleSubmission none 5 "zzz").retryCount = 0 ∧
     OfflineQueue.enqueue sampleSubmission none 5 "zzz" []
       = (genId 5 "zzz", [] ++ [mkQueuedRecord sampleSubmission none 5 "zzz"]) ∧
     OfflineQueue.passPointwiseSpec 3 (fun _ => OfflineQueue.DeliveryOutcome.failure)
       { store := [sampleRecord], isConnected := true, syncInProgress := false }) :=
  ⟨by decide,
    C3_retry_and_id_invariants sampleSubmission none 5 "zzz" [] 3
      (fun _ => OfflineQueue.DeliveryOutcome.failure)
      { store := [sampleRecord], isConnected := true, syncInProgress := false }
      (by decide) rfl rfl⟩
